import Mathlib

/-! Verification of the OIDC credential workflow subsystem of a MongoDB driver
(files `src/cmap/auth/mongodb_oidc.ts`,
`src/cmap/auth/mongodb_oidc/aws_machine_workflow.ts` and the modules
concatenated with them: the callback workflow, the token cache and the GCP
machine workflow).

The TypeScript code is shallowly embedded: asynchronous methods become pure
Lean functions that take the outcomes of their effectful collaborators
(server command responses, callback results, HTTP responses, file reads) as
explicit oracle inputs, and return, besides the `Except` result, the final
token-cache state and the list of observable effects (commands sent,
callbacks invoked) in order.
-/

namespace MongoDBOIDC

/-- Opaque server response document. The driver treats the final server
response verbatim; only its identity matters here. -/
structure Document where
  tag : Nat
deriving DecidableEq, Repr

/-- Error values of the driver, one constructor per error class used by the
embedded modules. Each carries the message string the source constructs. -/
inductive MongoError where
  | missingCredentials (msg : String)
  | invalidArgument (msg : String)
  | driver (msg : String)
  | aws (msg : String)
  | gcp (msg : String)
  | server (doc : Document)
deriving DecidableEq, Repr

/-- Source `mongodb_oidc.ts` line 15: message of the missing-credentials error. -/
def MISSING_CREDENTIALS_ERROR : String := "AuthContext must provide credentials."

/-- Identity-provider descriptor decoded from the start-response payload
(`IdPInfo` in `mongodb_oidc.ts`). -/
structure IdPInfo where
  issuer : String
  clientId : String
  requestScopes : Option (List String) := none
deriving DecidableEq, Repr

/-- A value returned by a user-supplied OIDC callback, as the validation in
`callback_workflow.ts` observes it: nullish, a non-object, or an object with
its list of own property names (`Object.getOwnPropertyNames`) together with
the value read at the `accessToken` key (meaningful only when that key is
among the properties). -/
inductive CallbackResult where
  | nullish
  | nonObject
  | object (props : List String) (accessToken : String)
deriving DecidableEq, Repr

/-- The `accessToken` property access performed by the workflow on a
(validated, hence object-shaped) callback result. -/
def CallbackResult.accessTokenOf : CallbackResult → String
  | .object _ tok => tok
  | _ => ""

/-- Mechanism properties of `MongoCredentials` recognized by this subsystem
(`AuthMechanismProperties`). The two callback functions are modelled by
opaque identifiers: only their presence and identity matter. In JavaScript a
present function value is always truthy, so presence checks translate to
`Option.isSome`; `ENVIRONMENT` is a string, falsy when absent or empty. -/
structure AuthMechanismProperties where
  ENVIRONMENT : Option String := none
  OIDC_CALLBACK : Option Nat := none
  OIDC_HUMAN_CALLBACK : Option Nat := none
  TOKEN_AUDIENCE : Option String := none
  TOKEN_CLIENT_ID : Option String := none
deriving DecidableEq, Repr

/-- Credentials passed into every workflow call (`MongoCredentials`): the
source database name and the mechanism properties. -/
structure MongoCredentials where
  source : String
  mechanismProperties : AuthMechanismProperties
deriving DecidableEq, Repr

/-- The workflow registry keys (`ProviderName`) and the four singleton
workflow instances, identified by kind. -/
inductive WorkflowKind where
  | callback
  | aws
  | azure
  | gcp
deriving DecidableEq, Repr

/-- Source `mongodb_oidc.ts` lines 94-98: the fixed registry mapping provider names
to workflow instances. -/
def OIDC_WORKFLOWS : List (String × WorkflowKind) :=
  [("callback", .callback), ("aws", .aws), ("azure", .azure), ("gcp", .gcp)]

/-- String interpolation of a possibly-undefined JavaScript value, as used in
the error message of `getWorkflow`. -/
def interpolate : Option String → String
  | none => "undefined"
  | some s => s

/-- Source `mongodb_oidc.ts` lines 157-166, `getWorkflow`: read `ENVIRONMENT`, fall
back to the callback workflow when it is falsy (absent or empty), look the
name up in the registry, and fail with an invalid-argument error naming the
original value when nothing is registered under it. -/
def getWorkflow (credentials : MongoCredentials) : Except MongoError WorkflowKind :=
  let providerName := credentials.mechanismProperties.ENVIRONMENT
  let key : String :=
    match providerName with
    | none => "callback"
    | some s => if s = "" then "callback" else s
  match OIDC_WORKFLOWS.lookup key with
  | some workflow => .ok workflow
  | none =>
      .error (.invalidArgument
        ("Could not load workflow for provider " ++ interpolate providerName))

/-- Source `callback_workflow.ts`: the OIDC protocol version sent to callbacks. -/
def OIDC_VERSION : Nat := 1

/-- Source `callback_workflow.ts`: five minutes in milliseconds. -/
def HUMAN_TIMEOUT_MS : Nat := 300000

/-- Source `callback_workflow.ts`: the own properties a callback result may have. -/
def RESULT_PROPERTIES : List String := ["accessToken", "expiresInSeconds", "refreshToken"]

/-- Source `callback_workflow.ts`: message of the invalid-callback-result error. -/
def CALLBACK_RESULT_ERROR : String :=
  "User provided OIDC callbacks must return a valid object with an accessToken."

/-- Source `callback_workflow.ts`: message of the no-callback-configured error. -/
def NO_CALLBACK : String :=
  "No OIDC_CALLBACK or OIDC_HUMAN_CALLBACK provided for callback workflow."

/-- The selected callback together with the human-workflow flag
(`OIDCCallbackInfo`). -/
structure OIDCCallbackInfo where
  callback : Nat
  isHumanWorkflow : Bool
deriving DecidableEq, Repr

/-- Source `callback_workflow.ts` lines 345-353, `getCallback`, translated exactly:
the guard throws the missing-credentials error when `OIDC_CALLBACK` is falsy
OR `OIDC_HUMAN_CALLBACK` is falsy; past the guard, `OIDC_CALLBACK` (then
necessarily present) is returned as the machine callback. The final arm is
unreachable because the guard already rejected the both-absent case. -/
def getCallback (mechanismProperties : AuthMechanismProperties) :
    Except MongoError OIDCCallbackInfo :=
  if mechanismProperties.OIDC_CALLBACK.isNone
      || mechanismProperties.OIDC_HUMAN_CALLBACK.isNone then
    .error (.missingCredentials NO_CALLBACK)
  else
    match mechanismProperties.OIDC_CALLBACK, mechanismProperties.OIDC_HUMAN_CALLBACK with
    | some cb, _ => .ok { callback := cb, isHumanWorkflow := false }
    | none, some hcb => .ok { callback := hcb, isHumanWorkflow := true }
    | none, none => .error (.missingCredentials NO_CALLBACK)

/-- Source `callback_workflow.ts` lines 360-364, `isCallbackResultInvalid`: a result
is invalid when it is nullish or not an object, when it lacks an
`accessToken` property, or when some own property lies outside
`RESULT_PROPERTIES`. -/
def isCallbackResultInvalid : CallbackResult → Bool
  | .nullish => true
  | .nonObject => true
  | .object props _ =>
      if !(props.contains "accessToken") then true
      else !(props.all (fun prop => RESULT_PROPERTIES.contains prop))

/-- Source `token_cache.ts`: holds zero or one token result. -/
structure TokenCache where
  tokenResult : Option CallbackResult := none
deriving DecidableEq, Repr

/-- Source `token_cache.ts`, `hasToken`. -/
def TokenCache.hasToken (c : TokenCache) : Bool :=
  c.tokenResult.isSome

/-- Source `token_cache.ts`, `get`: throws a driver error when no token is held. -/
def TokenCache.get (c : TokenCache) : Except MongoError CallbackResult :=
  match c.tokenResult with
  | none => .error (.driver "no token")
  | some t => .ok t

/-- Source `token_cache.ts`, `put`. -/
def TokenCache.put (c : TokenCache) (result : CallbackResult) : TokenCache :=
  { c with tokenResult := some result }

/-- Source `token_cache.ts`, `remove`. -/
def TokenCache.remove (c : TokenCache) : TokenCache :=
  { c with tokenResult := none }

/-- The optional-chaining call `cache?.hasToken()` of `execute`: falsy when
the cache is absent. -/
def cacheHasToken : Option TokenCache → Bool
  | some c => c.hasToken
  | none => false

/-- Modelled from the spec: `startCommandDocument` lives in the missing
`command_builders.ts` module. Spec section 2 describes the command builders
as "pure functions producing the two conversation messages (start, finish)
from credentials/token". The start command is therefore modelled as an
opaque record of the credentials it was built from, plus the `db` field the
source mutates onto it separately in `speculativeAuth`. -/
structure StartCommandDocument where
  builtFrom : MongoCredentials
  db : Option String := none
deriving DecidableEq, Repr

/-- Modelled from the spec: the pure start-command builder (see
`StartCommandDocument`). -/
def startCommandDocument (credentials : MongoCredentials) : StartCommandDocument :=
  { builtFrom := credentials }

/-- Modelled from the spec: `finishCommandDocument` lives in the missing
`command_builders.ts` module. Per spec sections 2 and 8, the finish command
is a pure function of the access token and the conversation id, embedding
both. -/
structure FinishCommandDocument where
  accessToken : String
  conversationId : Option Int
deriving DecidableEq, Repr

/-- Modelled from the spec: the pure finish-command builder (see
`FinishCommandDocument`). -/
def finishCommandDocument (accessToken : String) (conversationId : Option Int) :
    FinishCommandDocument :=
  { accessToken := accessToken, conversationId := conversationId }

/-- The start-step response as the workflow consumes it: the source reads
`conversationId` off the response document and BSON-deserializes the
`payload` buffer into an `IdPInfo`; the embedding carries both already
decoded. -/
structure StartResponse where
  conversationId : Option Int
  payload : IdPInfo
deriving DecidableEq, Repr

/-- A prior handshake response document, observed by `startAuthentication`
only through its optional `speculativeAuthenticate` field. -/
structure PriorResponse where
  speculativeAuthenticate : Option StartResponse := none
deriving DecidableEq, Repr

/-- Parameters passed to an OIDC callback (`OIDCCallbackParams`): timeout
budget in milliseconds (for `AbortSignal.timeout`), protocol version and the
identity-provider descriptor. -/
structure OIDCCallbackParams where
  timeoutMS : Nat
  version : Nat
  idpInfo : Option IdPInfo := none
deriving DecidableEq, Repr

/-- Observable effects of one callback-workflow run, in order: a start
command sent over the connection to a namespace, a callback invocation, a
finish command sent over the connection. -/
inductive Event where
  | commandStart (db : String) (doc : StartCommandDocument)
  | callbackInvoked (callback : Nat) (params : OIDCCallbackParams)
  | commandFinish (db : String) (doc : FinishCommandDocument)
deriving DecidableEq, Repr

/-- Does the event invoke a user-supplied callback? -/
def Event.isCallbackInvoked : Event → Bool
  | .callbackInvoked _ _ => true
  | _ => false

/-- Is the event one of the two conversation commands (start or finish)?
Such an event is neither a callback invocation nor any token fetch. -/
def Event.isConversationCommand : Event → Bool
  | .commandStart _ _ => true
  | .commandFinish _ _ => true
  | .callbackInvoked _ _ => false

instance {ε α : Type} [DecidableEq ε] [DecidableEq α] : DecidableEq (Except ε α) := fun x y =>
  match x, y with
  | .ok a, .ok b =>
      if h : a = b then .isTrue (by rw [h]) else .isFalse (by simp [h])
  | .error a, .error b =>
      if h : a = b then .isTrue (by rw [h]) else .isFalse (by simp [h])
  | .ok _, .error _ => .isFalse (by simp)
  | .error _, .ok _ => .isFalse (by simp)

/-- Outcomes supplied by the effectful collaborators of one run: the server
response to the start command, the settlement of the callback promise and
the server response to the finish command. -/
structure ConnOracle where
  startResponse : Except MongoError StartResponse
  callbackOutcome : Except MongoError CallbackResult
  finishResponse : Except MongoError Document
deriving DecidableEq, Repr

/-- The result of a `CallbackWorkflow.execute` or `reauthenticate` run: the
returned document or error, the final cache state and the ordered effects. -/
structure ExecOutcome where
  result : Except MongoError Document
  cache : Option TokenCache
  events : List Event
deriving DecidableEq, Repr

/-- The document returned by `CallbackWorkflow.speculativeAuth`: the start
command wrapped under a `speculativeAuthenticate` key. -/
structure SpeculativeAuthDocument where
  speculativeAuthenticate : StartCommandDocument
deriving DecidableEq, Repr

/-- Source `callback_workflow.ts` lines 215-219, `CallbackWorkflow.speculativeAuth`:
build the start command, set its `db` field to the credentials source, and
wrap it under `speculativeAuthenticate`. A total function taking no
connection and producing no effects: it throws nothing and performs no
network command. -/
def CallbackWorkflow.speculativeAuth (credentials : MongoCredentials) :
    SpeculativeAuthDocument :=
  let document := startCommandDocument credentials
  { speculativeAuthenticate := { document with db := some credentials.source } }

/-- Source `callback_workflow.ts` lines 278-294, `startAuthentication`: reuse the
speculative-authentication payload of the prior handshake response when one
is there, otherwise send the start command over the connection against the
credentials source namespace. -/
def CallbackWorkflow.startAuthentication (oracle : ConnOracle)
    (credentials : MongoCredentials) (response : Option PriorResponse) :
    Except MongoError StartResponse × List Event :=
  match response with
  | some r =>
      match r.speculativeAuthenticate with
      | some spec => (.ok spec, [])
      | none =>
          (oracle.startResponse,
            [Event.commandStart credentials.source (startCommandDocument credentials)])
  | none =>
      (oracle.startResponse,
        [Event.commandStart credentials.source (startCommandDocument credentials)])

/-- Source `callback_workflow.ts` lines 317-338, `fetchAccessToken`: invoke the
selected callback with `{timeoutContext, version, idpInfo}` (the source picks
`HUMAN_TIMEOUT_MS` for both the human and the machine flag), then reject the
settled result with the missing-credentials error carrying
`CALLBACK_RESULT_ERROR` when it is invalid. -/
def CallbackWorkflow.fetchAccessToken (oracle : ConnOracle)
    (callbackInfo : OIDCCallbackInfo) (idpInfo : IdPInfo) :
    Except MongoError CallbackResult × List Event :=
  let params : OIDCCallbackParams :=
    { timeoutMS := if callbackInfo.isHumanWorkflow then HUMAN_TIMEOUT_MS else HUMAN_TIMEOUT_MS
      version := OIDC_VERSION
      idpInfo := some idpInfo }
  let events := [Event.callbackInvoked callbackInfo.callback params]
  match oracle.callbackOutcome with
  | .error e => (.error e, events)
  | .ok result =>
      if isCallbackResultInvalid result then
        (.error (.missingCredentials CALLBACK_RESULT_ERROR), events)
      else
        (.ok result, events)

/-- Source `callback_workflow.ts` lines 299-311, `finishAuthentication`: send the
finish command, built from the access token of the token result and the
conversation id, to the credentials source namespace; return the server
response verbatim. -/
def CallbackWorkflow.finishAuthentication (oracle : ConnOracle)
    (credentials : MongoCredentials) (tokenResult : CallbackResult)
    (conversationId : Option Int) :
    Except MongoError Document × List Event :=
  (oracle.finishResponse,
    [Event.commandFinish credentials.source
      (finishCommandDocument tokenResult.accessTokenOf conversationId)])

/-- Source `callback_workflow.ts` lines 246-271, `CallbackWorkflow.execute`: select
the callback, run the start step, then either read the token from the cache
(`cache?.hasToken()` is falsy for an absent cache) or fetch one through the
callback and `cache?.put` it, and finally run the finish step. -/
def CallbackWorkflow.execute (oracle : ConnOracle) (credentials : MongoCredentials)
    (cache : Option TokenCache) (response : Option PriorResponse) : ExecOutcome :=
  match getCallback credentials.mechanismProperties with
  | .error e => { result := .error e, cache := cache, events := [] }
  | .ok callbackInfo =>
      match CallbackWorkflow.startAuthentication oracle credentials response with
      | (.error e, ev1) => { result := .error e, cache := cache, events := ev1 }
      | (.ok startDocument, ev1) =>
          let conversationId := startDocument.conversationId
          let idpInfo := startDocument.payload
          if cacheHasToken cache then
            match cache with
            | some c =>
                match c.get with
                | .error e => { result := .error e, cache := cache, events := ev1 }
                | .ok tokenResult =>
                    match CallbackWorkflow.finishAuthentication oracle credentials
                        tokenResult conversationId with
                    | (finRes, ev3) =>
                        { result := finRes, cache := cache, events := ev1 ++ ev3 }
            | none =>
                { result := .error (.driver "no token"), cache := cache, events := ev1 }
          else
            match CallbackWorkflow.fetchAccessToken oracle callbackInfo idpInfo with
            | (.error e, ev2) =>
                { result := .error e, cache := cache, events := ev1 ++ ev2 }
            | (.ok tokenResult, ev2) =>
                let cache1 := cache.map (fun c => c.put tokenResult)
                match CallbackWorkflow.finishAuthentication oracle credentials
                    tokenResult conversationId with
                | (finRes, ev3) =>
                    { result := finRes, cache := cache1, events := ev1 ++ ev2 ++ ev3 }

/-- Source `callback_workflow.ts` lines 233-241, `CallbackWorkflow.reauthenticate`:
unconditionally `cache?.remove()` the access token, then run `execute` with
no prior response. -/
def CallbackWorkflow.reauthenticate (oracle : ConnOracle)
    (credentials : MongoCredentials) (cache : Option TokenCache) : ExecOutcome :=
  let cache := cache.map TokenCache.remove
  CallbackWorkflow.execute oracle credentials cache none

/-- Raw provider token envelope of the machine workflows (`AccessToken`). -/
structure AccessToken where
  access_token : String
  expires_in : Option Nat := none
deriving DecidableEq, Repr

/-- A URL as `gcp_machine_workflow.ts` builds it: `new URL(base)` followed by
`searchParams.append` calls. -/
structure Url where
  base : String
  searchParams : List (String × String)
deriving DecidableEq, Repr

/-- Source `gcp_machine_workflow.ts`: the GCP metadata base URL. -/
def GCP_BASE_URL : String :=
  "http://metadata/computeMetadata/v1/instance/service-accounts/default/identity"

/-- Source `gcp_machine_workflow.ts`: the required GCP request headers. -/
def GCP_HEADERS : List (String × String) := [("Metadata-Flavor", "Google")]

/-- Source `gcp_machine_workflow.ts`: message of the missing-audience error. -/
def TOKEN_AUDIENCE_MISSING_ERROR : String :=
  "TOKEN_AUDIENCE must be set in the auth mechanism properties when ENVIRONMENT is gcp."

/-- One HTTP request as issued through `request` in `utils`: the URL and the
headers. -/
structure HttpRequestRecord where
  url : Url
  headers : List (String × String)
deriving DecidableEq, Repr

/-- The request `getGcpTokenData` builds: `new URL(GCP_BASE_URL)` with the
`audience` query parameter appended, sent with the GCP headers. -/
def gcpRequest (tokenAudience : String) : HttpRequestRecord :=
  { url := { base := GCP_BASE_URL, searchParams := [("audience", tokenAudience)] }
    headers := GCP_HEADERS }

/-- Source `gcp_machine_workflow.ts` lines 423-431, `getGcpTokenData`: build the
metadata URL with the `audience` query parameter, issue the GET with the
`Metadata-Flavor: Google` header (the HTTP collaborator is the `http`
oracle), and wrap the raw response body as the access token. Returns the
result together with the list of issued requests. -/
def getGcpTokenData (http : HttpRequestRecord → Except MongoError String)
    (tokenAudience : String) :
    Except MongoError AccessToken × List HttpRequestRecord :=
  let req := gcpRequest tokenAudience
  (match http req with
    | .error e => .error e
    | .ok data => .ok { access_token := data },
   [req])

/-- Source `gcp_machine_workflow.ts` lines 407-418, `GCPMachineWorkflow.getToken`:
read `TOKEN_AUDIENCE` from the credentials (the source takes the credentials
optionally); when it is falsy (credentials absent, property absent, or the
empty string) throw the GCP configuration error before any request,
otherwise delegate to `getGcpTokenData`. -/
def GCPMachineWorkflow.getToken (http : HttpRequestRecord → Except MongoError String)
    (credentials : Option MongoCredentials) :
    Except MongoError AccessToken × List HttpRequestRecord :=
  match credentials.bind (fun c => c.mechanismProperties.TOKEN_AUDIENCE) with
  | none => (.error (.gcp TOKEN_AUDIENCE_MISSING_ERROR), [])
  | some tokenAudience =>
      if tokenAudience = "" then (.error (.gcp TOKEN_AUDIENCE_MISSING_ERROR), [])
      else getGcpTokenData http tokenAudience

/-- Source `aws_machine_workflow.ts`: message of the missing-token-file error. -/
def TOKEN_MISSING_ERROR : String :=
  "AWS_WEB_IDENTITY_TOKEN_FILE must be set in the environment."

/-- Source `aws_machine_workflow.ts` lines 22-29, `AwsMachineWorkflow.getToken`:
read the `AWS_WEB_IDENTITY_TOKEN_FILE` environment variable (`env`); when it
is falsy (unset or empty) throw the AWS configuration error, otherwise read
the named file through the file-system collaborator (`readFile` oracle,
which may itself fail) and use its full contents verbatim as the access
token. Returns the result together with the list of files accessed. -/
def AwsMachineWorkflow.getToken (env : Option String)
    (readFile : String → Except MongoError String) :
    Except MongoError AccessToken × List String :=
  match env with
  | none => (.error (.aws TOKEN_MISSING_ERROR), [])
  | some tokenFile =>
      if tokenFile = "" then (.error (.aws TOKEN_MISSING_ERROR), [])
      else ((readFile tokenFile).map (fun token => { access_token := token }), [tokenFile])

/-- The parameters `fetchAccessToken` passes to the callback: the shared
timeout bound, the protocol version and the identity-provider descriptor. -/
def callbackParamsFor (idpInfo : IdPInfo) : OIDCCallbackParams :=
  { timeoutMS := HUMAN_TIMEOUT_MS, version := OIDC_VERSION, idpInfo := some idpInfo }

/-! Concrete fixtures used by the witness theorems. -/

/-- A sample identity-provider descriptor. -/
def sampleIdPInfo : IdPInfo :=
  { issuer := "https://idp.example", clientId := "abc" }

/-- Sample credentials with both callbacks configured. -/
def sampleCredentials : MongoCredentials :=
  { source := "admin"
    mechanismProperties := { OIDC_CALLBACK := some 1, OIDC_HUMAN_CALLBACK := some 2 } }

/-- A valid sample callback result. -/
def sampleToken : CallbackResult := .object ["accessToken"] "tok1"

/-- A sample run in which every collaborator succeeds. -/
def sampleOracle : ConnOracle :=
  { startResponse := .ok { conversationId := some 7, payload := sampleIdPInfo }
    callbackOutcome := .ok sampleToken
    finishResponse := .ok { tag := 0 } }

/-- A sample run whose finish command is rejected by the server. -/
def failFinishOracle : ConnOracle :=
  { sampleOracle with finishResponse := .error (.server { tag := 9 }) }

/-- A sample run whose callback settles with a result carrying an extra
property. -/
def invalidResultOracle : ConnOracle :=
  { sampleOracle with callbackOutcome := .ok (.object ["accessToken", "extra"] "t") }

/-- A previously cached token, distinct from `sampleToken`. -/
def cachedToken : CallbackResult := .object ["accessToken"] "cached"

/-- A cache already holding `cachedToken`. -/
def sampleCacheWithToken : TokenCache := { tokenResult := some cachedToken }

/-- Credentials with no mechanism properties set. -/
def plainCredentials : MongoCredentials :=
  { source := "admin", mechanismProperties := {} }

/-- Credentials whose `ENVIRONMENT` is `aws`. -/
def awsEnvCredentials : MongoCredentials :=
  { source := "admin", mechanismProperties := { ENVIRONMENT := some "aws" } }

/-- Credentials whose `ENVIRONMENT` is the unrecognized name `foo`. -/
def fooEnvCredentials : MongoCredentials :=
  { source := "admin", mechanismProperties := { ENVIRONMENT := some "foo" } }

/-- Credentials carrying a GCP token audience. -/
def gcpAudienceCredentials : MongoCredentials :=
  { source := "admin", mechanismProperties := { TOKEN_AUDIENCE := some "aud1" } }

/-- Credentials whose `TOKEN_AUDIENCE` is present but empty. -/
def emptyAudienceCredentials : MongoCredentials :=
  { source := "admin", mechanismProperties := { TOKEN_AUDIENCE := some "" } }

/-- An HTTP collaborator answering every request with the body `body`. -/
def constHttp : HttpRequestRecord → Except MongoError String :=
  fun _ => .ok "body"

/-- A file-system collaborator mapping every file name to contents with
leading and trailing whitespace (so trimming would be observable). -/
def constReadFile : String → Except MongoError String :=
  fun _ => .ok "  line1\nline2\n"

/-! Theorems. -/

/-- C1: evidence of the code bug in `getCallback`. The claim (and the spec)
say the selection fails with the missing-credentials error if and only if
neither callback is configured, selecting the machine callback when it is
configured and the human callback otherwise. The code instead throws
whenever EITHER callback is absent: with only the machine callback
configured, and likewise with only the human callback configured, it
returns the missing-credentials error, contradicting its own doc comment
("Returns a callback, either machine or human") and its own error message
("No OIDC_CALLBACK or OIDC_HUMAN_CALLBACK provided"). -/
theorem getCallback_rejects_single_configured_callback :
    getCallback { OIDC_CALLBACK := some 1 } = .error (.missingCredentials NO_CALLBACK)
    ∧ getCallback { OIDC_HUMAN_CALLBACK := some 2 }
        = .error (.missingCredentials NO_CALLBACK) :=
  ⟨rfl, rfl⟩

/-- C2: workflow dispatch is determined by `ENVIRONMENT`: unset resolves the
callback workflow; each of the four registered names resolves the matching
workflow instance; any other non-empty value fails with a configuration
error whose message names that value. -/
theorem getWorkflow_dispatch (credentials : MongoCredentials) :
    (credentials.mechanismProperties.ENVIRONMENT = none →
      getWorkflow credentials = .ok .callback)
    ∧ (credentials.mechanismProperties.ENVIRONMENT = some "callback" →
      getWorkflow credentials = .ok .callback)
    ∧ (credentials.mechanismProperties.ENVIRONMENT = some "aws" →
      getWorkflow credentials = .ok .aws)
    ∧ (credentials.mechanismProperties.ENVIRONMENT = some "azure" →
      getWorkflow credentials = .ok .azure)
    ∧ (credentials.mechanismProperties.ENVIRONMENT = some "gcp" →
      getWorkflow credentials = .ok .gcp)
    ∧ (∀ s : String, credentials.mechanismProperties.ENVIRONMENT = some s → s ≠ "" →
        s ∉ ["callback", "aws", "azure", "gcp"] →
        getWorkflow credentials = .error (.invalidArgument
          ("Could not load workflow for provider " ++ s))) := by
  refine ⟨?_, ?_, ?_, ?_, ?_, ?_⟩
  · intro h; simp [getWorkflow, h, OIDC_WORKFLOWS, List.lookup, interpolate]
  · intro h; simp [getWorkflow, h, OIDC_WORKFLOWS, List.lookup, interpolate]
  · intro h; simp [getWorkflow, h, OIDC_WORKFLOWS, List.lookup, interpolate]
  · intro h; simp [getWorkflow, h, OIDC_WORKFLOWS, List.lookup, interpolate]
  · intro h; simp [getWorkflow, h, OIDC_WORKFLOWS, List.lookup, interpolate]
  · intro s h hne hmem
    simp only [List.mem_cons, List.not_mem_nil, or_false, not_or] at hmem
    obtain ⟨h1, h2, h3, h4⟩ := hmem
    have e1 : (s == "callback") = false := by simp [h1]
    have e2 : (s == "aws") = false := by simp [h2]
    have e3 : (s == "azure") = false := by simp [h3]
    have e4 : (s == "gcp") = false := by simp [h4]
    simp [getWorkflow, h, OIDC_WORKFLOWS, List.lookup, interpolate, hne, e1, e2, e3, e4]

/-- Witness for C2 at concrete inputs: unset, a registered name, and an
unrecognized non-empty name. -/
theorem getWorkflow_dispatch_witness :
    getWorkflow plainCredentials = .ok .callback
    ∧ getWorkflow awsEnvCredentials = .ok .aws
    ∧ getWorkflow fooEnvCredentials =
        .error (.invalidArgument "Could not load workflow for provider foo") :=
  ⟨(getWorkflow_dispatch _).1 rfl,
   (getWorkflow_dispatch _).2.2.1 rfl,
   (getWorkflow_dispatch _).2.2.2.2.2 "foo" rfl (by decide) (by decide)⟩

/-- C6: `speculativeAuth` of the callback workflow is a total pure function
(it cannot throw and sends no command: it consumes no connection and
produces no effects) returning the start command built from the credentials,
with its `db` field set to `credentials.source`, wrapped under the
`speculativeAuthenticate` key. -/
theorem speculativeAuth_shape (credentials : MongoCredentials) :
    CallbackWorkflow.speculativeAuth credentials =
      { speculativeAuthenticate :=
          { startCommandDocument credentials with db := some credentials.source } }
    ∧ (CallbackWorkflow.speculativeAuth credentials).speculativeAuthenticate.db
        = some credentials.source :=
  ⟨rfl, rfl⟩

/-- C9: whenever `getCallback` returns without throwing, the returned
callback is the configured machine callback with `isHumanWorkflow = false`;
the human-callback branch is dead code, so the callback workflow never
selects the human callback. -/
theorem getCallback_success_is_machine (mp : AuthMechanismProperties)
    (info : OIDCCallbackInfo) (h : getCallback mp = .ok info) :
    info.isHumanWorkflow = false ∧ mp.OIDC_CALLBACK = some info.callback := by
  unfold getCallback at h
  by_cases hg : mp.OIDC_CALLBACK.isNone || mp.OIDC_HUMAN_CALLBACK.isNone
  · rw [if_pos hg] at h
    exact absurd h (by simp)
  · rw [if_neg hg] at h
    simp only [Bool.or_eq_true, Option.isNone_iff_eq_none, not_or] at hg
    obtain ⟨h1, h2⟩ := hg
    obtain ⟨cb, hcb⟩ := Option.ne_none_iff_exists.mp (by simpa using h1)
    rw [← hcb] at h ⊢
    cases hhum : mp.OIDC_HUMAN_CALLBACK with
    | none => rw [hhum] at h; simp at h; rw [← h]; exact ⟨rfl, rfl⟩
    | some hcb2 => rw [hhum] at h; simp at h; rw [← h]; exact ⟨rfl, rfl⟩

/-- Witness for C9 at a concrete mechanism-properties map on which
`getCallback` succeeds. -/
theorem getCallback_success_is_machine_witness :
    (OIDCCallbackInfo.mk 1 false).isHumanWorkflow = false
    ∧ ({ OIDC_CALLBACK := some 1, OIDC_HUMAN_CALLBACK := some 2 } :
        AuthMechanismProperties).OIDC_CALLBACK
        = some (OIDCCallbackInfo.mk 1 false).callback :=
  getCallback_success_is_machine _ _ rfl

/-- C7, counterexample: the claim asserts that for every credentials object
with `TOKEN_AUDIENCE` present an HTTP request carrying that audience is
issued and the response body is returned as the token. With
`TOKEN_AUDIENCE` present but equal to the empty string (a falsy value in
JavaScript), the GCP `getToken` instead returns the configuration error and
issues no request at all: the request list is empty and no `AccessToken` is
produced from the HTTP collaborator that would have answered with a body. -/
theorem gcp_getToken_empty_audience_counterexample :
    GCPMachineWorkflow.getToken constHttp (some emptyAudienceCredentials) =
      (.error (.gcp TOKEN_AUDIENCE_MISSING_ERROR), []) :=
  rfl

/-- C7, amended: with `TOKEN_AUDIENCE` absent or empty, GCP `getToken`
fails with the configuration error before issuing any HTTP request; with
`TOKEN_AUDIENCE` present and non-empty, exactly one request is issued, its
URL carrying the `audience` query parameter equal to the configured value
and its headers carrying `Metadata-Flavor: Google`, and the HTTP response
body becomes the `access_token` of the returned token. -/
theorem gcp_getToken_spec (http : HttpRequestRecord → Except MongoError String)
    (credentials : MongoCredentials) :
    (credentials.mechanismProperties.TOKEN_AUDIENCE = none ∨
        credentials.mechanismProperties.TOKEN_AUDIENCE = some "" →
      GCPMachineWorkflow.getToken http (some credentials) =
        (.error (.gcp TOKEN_AUDIENCE_MISSING_ERROR), []))
    ∧ (∀ aud : String, aud ≠ "" →
        credentials.mechanismProperties.TOKEN_AUDIENCE = some aud →
        GCPMachineWorkflow.getToken http (some credentials) =
          ((http (gcpRequest aud)).map (fun data => { access_token := data }),
           [gcpRequest aud])
        ∧ (gcpRequest aud).url.searchParams = [("audience", aud)]
        ∧ (gcpRequest aud).headers = [("Metadata-Flavor", "Google")]) := by
  constructor
  · intro h
    rcases h with h | h
    · simp [GCPMachineWorkflow.getToken, h]
    · simp [GCPMachineWorkflow.getToken, h]
  · intro aud hne h
    refine ⟨?_, rfl, rfl⟩
    cases hh : http (gcpRequest aud) with
    | error e => simp [GCPMachineWorkflow.getToken, getGcpTokenData, h, hne, hh, Except.map]
    | ok data => simp [GCPMachineWorkflow.getToken, getGcpTokenData, h, hne, hh, Except.map]

/-- Witness for C7 (amended) at concrete credentials: absent audience,
empty audience, and the audience `aud1` with a constant HTTP
collaborator. -/
theorem gcp_getToken_spec_witness :
    GCPMachineWorkflow.getToken constHttp (some plainCredentials) =
      (.error (.gcp TOKEN_AUDIENCE_MISSING_ERROR), [])
    ∧ GCPMachineWorkflow.getToken constHttp (some emptyAudienceCredentials) =
        (.error (.gcp TOKEN_AUDIENCE_MISSING_ERROR), [])
    ∧ GCPMachineWorkflow.getToken constHttp (some gcpAudienceCredentials) =
        ((constHttp (gcpRequest "aud1")).map (fun data => { access_token := data }),
         [gcpRequest "aud1"])
    ∧ (gcpRequest "aud1").headers = [("Metadata-Flavor", "Google")] :=
  ⟨(gcp_getToken_spec constHttp plainCredentials).1 (Or.inl rfl),
   (gcp_getToken_spec constHttp emptyAudienceCredentials).1 (Or.inr rfl),
   ((gcp_getToken_spec constHttp gcpAudienceCredentials).2 "aud1" (by decide) rfl).1,
   ((gcp_getToken_spec constHttp gcpAudienceCredentials).2 "aud1" (by decide) rfl).2.2⟩

/-- C8: with the `AWS_WEB_IDENTITY_TOKEN_FILE` environment variable unset or
empty, AWS `getToken` fails with the designated configuration error and
accesses no file; with it set (non-empty), the named file is read and its
full contents, with no characters trimmed, become the `access_token` of the
returned token (a file-read failure propagates). -/
theorem aws_getToken_spec (readFile : String → Except MongoError String) :
    (AwsMachineWorkflow.getToken none readFile = (.error (.aws TOKEN_MISSING_ERROR), []))
    ∧ (AwsMachineWorkflow.getToken (some "") readFile
        = (.error (.aws TOKEN_MISSING_ERROR), []))
    ∧ (∀ tokenFile : String, tokenFile ≠ "" →
        AwsMachineWorkflow.getToken (some tokenFile) readFile =
          ((readFile tokenFile).map (fun token => { access_token := token }),
           [tokenFile])) := by
  refine ⟨rfl, rfl, ?_⟩
  intro tokenFile hne
  simp [AwsMachineWorkflow.getToken, hne]

/-- Witness for C8: the unset and empty cases, and a concrete file name with
a collaborator whose contents carry untrimmed whitespace. -/
theorem aws_getToken_spec_witness :
    AwsMachineWorkflow.getToken none constReadFile = (.error (.aws TOKEN_MISSING_ERROR), [])
    ∧ AwsMachineWorkflow.getToken (some "/var/token") constReadFile =
        (.ok { access_token := "  line1\nline2\n" }, ["/var/token"]) :=
  ⟨(aws_getToken_spec constReadFile).1,
   by rw [(aws_getToken_spec constReadFile).2.2 "/var/token" (by decide)]; rfl⟩


/-- The effects of the start step are conversation commands only (none, or
one start command). -/
theorem startAuthentication_events_conversation (oracle : ConnOracle)
    (credentials : MongoCredentials) (response : Option PriorResponse) :
    ∀ ev ∈ (CallbackWorkflow.startAuthentication oracle credentials response).2,
      ev.isConversationCommand = true := by
  unfold CallbackWorkflow.startAuthentication
  cases response with
  | none => simp [Event.isConversationCommand]
  | some r =>
      cases h : r.speculativeAuthenticate with
      | none => simp [h, Event.isConversationCommand]
      | some spec => simp [h]

/-- Lemma: `fetchAccessToken` always records exactly one callback invocation, with
the parameters built from the identity-provider descriptor. -/
theorem fetchAccessToken_events (oracle : ConnOracle) (info : OIDCCallbackInfo)
    (idp : IdPInfo) :
    (CallbackWorkflow.fetchAccessToken oracle info idp).2
      = [Event.callbackInvoked info.callback (callbackParamsFor idp)] := by
  unfold CallbackWorkflow.fetchAccessToken callbackParamsFor
  cases oracle.callbackOutcome with
  | error e => simp
  | ok r => by_cases hr : isCallbackResultInvalid r <;> simp [hr]

/-- Lemma: `fetchAccessToken` on a callback result failing validation: the
invalid-callback-result error, after one callback invocation. -/
theorem fetchAccessToken_invalid (oracle : ConnOracle) (info : OIDCCallbackInfo)
    (idp : IdPInfo) (r : CallbackResult)
    (hcb : oracle.callbackOutcome = .ok r) (hinv : isCallbackResultInvalid r = true) :
    CallbackWorkflow.fetchAccessToken oracle info idp =
      (.error (.missingCredentials CALLBACK_RESULT_ERROR),
       [Event.callbackInvoked info.callback (callbackParamsFor idp)]) := by
  simp [CallbackWorkflow.fetchAccessToken, hcb, hinv, callbackParamsFor]

/-- Lemma: `fetchAccessToken` on a callback result passing validation: the result
itself, after one callback invocation. -/
theorem fetchAccessToken_valid (oracle : ConnOracle) (info : OIDCCallbackInfo)
    (idp : IdPInfo) (r : CallbackResult)
    (hcb : oracle.callbackOutcome = .ok r) (hinv : isCallbackResultInvalid r = false) :
    CallbackWorkflow.fetchAccessToken oracle info idp =
      (.ok r, [Event.callbackInvoked info.callback (callbackParamsFor idp)]) := by
  simp [CallbackWorkflow.fetchAccessToken, hcb, hinv, callbackParamsFor]

/-- Run equation: `execute` when callback selection fails. -/
theorem execute_eq_no_callback (oracle : ConnOracle) (credentials : MongoCredentials)
    (cache : Option TokenCache) (response : Option PriorResponse) (e : MongoError)
    (hg : getCallback credentials.mechanismProperties = .error e) :
    CallbackWorkflow.execute oracle credentials cache response =
      { result := .error e, cache := cache, events := [] } := by
  simp [CallbackWorkflow.execute, hg]

/-- Run equation: `execute` when the start step fails. -/
theorem execute_eq_start_error (oracle : ConnOracle) (credentials : MongoCredentials)
    (cache : Option TokenCache) (response : Option PriorResponse)
    (info : OIDCCallbackInfo) (e : MongoError) (ev1 : List Event)
    (hg : getCallback credentials.mechanismProperties = .ok info)
    (hsa : CallbackWorkflow.startAuthentication oracle credentials response
      = (.error e, ev1)) :
    CallbackWorkflow.execute oracle credentials cache response =
      { result := .error e, cache := cache, events := ev1 } := by
  simp [CallbackWorkflow.execute, hg, hsa]

/-- Run equation: `execute` on a cache hit proceeds directly from the start
step to the finish step, sending the finish command built from the cached
token. -/
theorem execute_eq_cache_hit (oracle : ConnOracle) (credentials : MongoCredentials)
    (c : TokenCache) (response : Option PriorResponse)
    (info : OIDCCallbackInfo) (startDoc : StartResponse) (ev1 : List Event)
    (t : CallbackResult)
    (hg : getCallback credentials.mechanismProperties = .ok info)
    (hsa : CallbackWorkflow.startAuthentication oracle credentials response
      = (.ok startDoc, ev1))
    (ht : c.tokenResult = some t) :
    CallbackWorkflow.execute oracle credentials (some c) response =
      { result := oracle.finishResponse
        cache := some c
        events := ev1 ++ [Event.commandFinish credentials.source
          (finishCommandDocument t.accessTokenOf startDoc.conversationId)] } := by
  simp [CallbackWorkflow.execute, hg, hsa, cacheHasToken, TokenCache.hasToken,
    TokenCache.get, ht, CallbackWorkflow.finishAuthentication]

/-- Run equation: `execute` on a cache miss whose token fetch fails. -/
theorem execute_eq_fetch_error (oracle : ConnOracle) (credentials : MongoCredentials)
    (cache : Option TokenCache) (response : Option PriorResponse)
    (info : OIDCCallbackInfo) (startDoc : StartResponse) (ev1 : List Event)
    (e : MongoError) (ev2 : List Event)
    (hg : getCallback credentials.mechanismProperties = .ok info)
    (hsa : CallbackWorkflow.startAuthentication oracle credentials response
      = (.ok startDoc, ev1))
    (hcond : cacheHasToken cache = false)
    (hf : CallbackWorkflow.fetchAccessToken oracle info startDoc.payload
      = (.error e, ev2)) :
    CallbackWorkflow.execute oracle credentials cache response =
      { result := .error e, cache := cache, events := ev1 ++ ev2 } := by
  simp [CallbackWorkflow.execute, hg, hsa, hcond, hf]

/-- Run equation: `execute` on a cache miss whose token fetch succeeds
caches the fetched token and then sends the finish command. -/
theorem execute_eq_fetch_ok (oracle : ConnOracle) (credentials : MongoCredentials)
    (cache : Option TokenCache) (response : Option PriorResponse)
    (info : OIDCCallbackInfo) (startDoc : StartResponse) (ev1 : List Event)
    (tok : CallbackResult) (ev2 : List Event)
    (hg : getCallback credentials.mechanismProperties = .ok info)
    (hsa : CallbackWorkflow.startAuthentication oracle credentials response
      = (.ok startDoc, ev1))
    (hcond : cacheHasToken cache = false)
    (hf : CallbackWorkflow.fetchAccessToken oracle info startDoc.payload
      = (.ok tok, ev2)) :
    CallbackWorkflow.execute oracle credentials cache response =
      { result := oracle.finishResponse
        cache := cache.map (fun c => c.put tok)
        events := ev1 ++ ev2 ++ [Event.commandFinish credentials.source
          (finishCommandDocument tok.accessTokenOf startDoc.conversationId)] } := by
  simp [CallbackWorkflow.execute, hg, hsa, hcond, hf, CallbackWorkflow.finishAuthentication]

/-- When the cache at the token-acquisition step holds no token, a
successful `execute` has invoked a callback. -/
theorem execute_no_token_success_invokes_callback (oracle : ConnOracle)
    (credentials : MongoCredentials) (cache : Option TokenCache)
    (response : Option PriorResponse)
    (hc : ∀ c, cache = some c → c.hasToken = false) (d : Document)
    (h : (CallbackWorkflow.execute oracle credentials cache response).result = .ok d) :
    ∃ ev ∈ (CallbackWorkflow.execute oracle credentials cache response).events,
      ev.isCallbackInvoked = true := by
  cases hg : getCallback credentials.mechanismProperties with
  | error e =>
      rw [execute_eq_no_callback oracle credentials cache response e hg] at h
      simp at h
  | ok info =>
      rcases hsa : CallbackWorkflow.startAuthentication oracle credentials response
        with ⟨sres, ev1⟩
      cases sres with
      | error e =>
          rw [execute_eq_start_error oracle credentials cache response info e ev1 hg hsa]
            at h
          simp at h
      | ok startDoc =>
          have hcond : cacheHasToken cache = false := by
            cases cache with
            | none => rfl
            | some c => exact hc c rfl
          rcases hf : CallbackWorkflow.fetchAccessToken oracle info startDoc.payload
            with ⟨fres, ev2⟩
          cases fres with
          | error e =>
              rw [execute_eq_fetch_error oracle credentials cache response info startDoc
                ev1 e ev2 hg hsa hcond hf] at h
              simp at h
          | ok tok =>
              rw [execute_eq_fetch_ok oracle credentials cache response info startDoc
                ev1 tok ev2 hg hsa hcond hf]
              have hev2 : ev2 = [Event.callbackInvoked info.callback
                  (callbackParamsFor startDoc.payload)] := by
                have hfe := fetchAccessToken_events oracle info startDoc.payload
                rw [hf] at hfe
                exact hfe
              refine ⟨Event.callbackInvoked info.callback
                (callbackParamsFor startDoc.payload), ?_, rfl⟩
              simp [hev2]

/-- C3: `reauthenticate` first unconditionally removes any cached token and
then behaves exactly as `execute` with no prior response; the cache passed
on to that `execute` is therefore empty at the moment token acquisition is
attempted, and a successful `reauthenticate` has performed at least one
token-acquisition call (a callback invocation appears among its effects). -/
theorem reauthenticate_forces_fresh_acquisition (oracle : ConnOracle)
    (credentials : MongoCredentials) (cache : Option TokenCache) :
    CallbackWorkflow.reauthenticate oracle credentials cache =
      CallbackWorkflow.execute oracle credentials (cache.map TokenCache.remove) none
    ∧ (∀ c, cache.map TokenCache.remove = some c → c.hasToken = false)
    ∧ (∀ d : Document,
        (CallbackWorkflow.reauthenticate oracle credentials cache).result = .ok d →
        ∃ ev ∈ (CallbackWorkflow.reauthenticate oracle credentials cache).events,
          ev.isCallbackInvoked = true) := by
  have hempty : ∀ c, cache.map TokenCache.remove = some c → c.hasToken = false := by
    intro c hcc
    cases cache with
    | none => exact absurd hcc (by simp)
    | some c0 =>
        simp only [Option.map_some', Option.some.injEq] at hcc
        rw [← hcc]
        rfl
  refine ⟨rfl, hempty, ?_⟩
  intro d h
  exact execute_no_token_success_invokes_callback oracle credentials
    (cache.map TokenCache.remove) none hempty d h

/-- Witness for C3: a fully successful reauthentication over a cache that
previously held a token invokes the callback. -/
theorem reauthenticate_forces_fresh_acquisition_witness :
    ∃ ev ∈ (CallbackWorkflow.reauthenticate sampleOracle sampleCredentials
        (some sampleCacheWithToken)).events, ev.isCallbackInvoked = true :=
  (reauthenticate_forces_fresh_acquisition sampleOracle sampleCredentials
    (some sampleCacheWithToken)).2.2 { tag := 0 } rfl

/-- C4: every callback result that is nullish, is not an object, lacks an
`accessToken` property, or carries a property outside
`{accessToken, expiresInSeconds, refreshToken}` fails validation; with such
a result the workflow fails with the invalid-callback-result error and the
cache is left untouched: a cache with no token before the call still has no
token after the failure. -/
theorem invalid_callback_result_rejected_not_cached (r : CallbackResult)
    (hr : r = .nullish ∨ r = .nonObject ∨
      (∃ props tok, r = .object props tok ∧
        ("accessToken" ∉ props ∨ ∃ p ∈ props, p ∉ RESULT_PROPERTIES))) :
    isCallbackResultInvalid r = true
    ∧ (∀ (oracle : ConnOracle) (credentials : MongoCredentials) (c : TokenCache)
        (response : Option PriorResponse) (info : OIDCCallbackInfo)
        (startDoc : StartResponse) (ev1 : List Event),
        c.hasToken = false →
        oracle.callbackOutcome = .ok r →
        getCallback credentials.mechanismProperties = .ok info →
        CallbackWorkflow.startAuthentication oracle credentials response
          = (.ok startDoc, ev1) →
        (CallbackWorkflow.execute oracle credentials (some c) response).result
            = .error (.missingCredentials CALLBACK_RESULT_ERROR)
        ∧ (CallbackWorkflow.execute oracle credentials (some c) response).cache = some c
        ∧ (CallbackWorkflow.execute oracle credentials (some c) response).cache.map
            TokenCache.hasToken = some false) := by
  have hinv : isCallbackResultInvalid r = true := by
    rcases hr with h | h | ⟨props, tok, rfl, hcase⟩
    · rw [h]; rfl
    · rw [h]; rfl
    · simp only [isCallbackResultInvalid]
      rcases hcase with hna | ⟨p, hp, hnp⟩
      · simp [hna]
      · by_cases hat : "accessToken" ∈ props
        · simp [hat]
          exact ⟨p, hp, hnp⟩
        · simp [hat]
  refine ⟨hinv, ?_⟩
  intro oracle credentials c response info startDoc ev1 hc hcb hinfo hstart
  have hcond : cacheHasToken (some c) = false := by simpa [cacheHasToken] using hc
  have hf := fetchAccessToken_invalid oracle info startDoc.payload r hcb hinv
  have he := execute_eq_fetch_error oracle credentials (some c) response info startDoc
    ev1 (.missingCredentials CALLBACK_RESULT_ERROR)
    [Event.callbackInvoked info.callback (callbackParamsFor startDoc.payload)]
    hinfo hstart hcond hf
  rw [he]
  exact ⟨rfl, rfl, by simp [hc]⟩

/-- Witness for C4: a callback result carrying the extra property `extra`
is rejected by a concrete run over an empty cache, which stays empty. -/
theorem invalid_callback_result_rejected_not_cached_witness :
    isCallbackResultInvalid (.object ["accessToken", "extra"] "t") = true
    ∧ (CallbackWorkflow.execute invalidResultOracle sampleCredentials
        (some {}) none).result = .error (.missingCredentials CALLBACK_RESULT_ERROR)
    ∧ (CallbackWorkflow.execute invalidResultOracle sampleCredentials
        (some {}) none).cache = some {} := by
  have h := invalid_callback_result_rejected_not_cached
    (.object ["accessToken", "extra"] "t")
    (Or.inr (Or.inr ⟨["accessToken", "extra"], "t", rfl,
      Or.inr ⟨"extra", by decide, by decide⟩⟩))
  have h2 := h.2 invalidResultOracle sampleCredentials {} none
    { callback := 1, isHumanWorkflow := false }
    { conversationId := some 7, payload := sampleIdPInfo }
    [Event.commandStart "admin" (startCommandDocument sampleCredentials)]
    rfl rfl rfl rfl
  exact ⟨h.1, h2.1, h2.2.1⟩

/-- C5: when the cache already holds a token, `execute` performs zero
callback invocations and zero token fetches — every recorded effect is one
of the two conversation commands — and, once callback selection and the
start step have gone through, it proceeds directly to the finish step using
the cached token. -/
theorem execute_cache_hit_skips_acquisition (oracle : ConnOracle)
    (credentials : MongoCredentials) (c : TokenCache) (response : Option PriorResponse)
    (t : CallbackResult) (ht : c.tokenResult = some t) :
    (∀ ev ∈ (CallbackWorkflow.execute oracle credentials (some c) response).events,
        ev.isConversationCommand = true)
    ∧ (∀ (info : OIDCCallbackInfo) (startDoc : StartResponse) (ev1 : List Event),
        getCallback credentials.mechanismProperties = .ok info →
        CallbackWorkflow.startAuthentication oracle credentials response
          = (.ok startDoc, ev1) →
        CallbackWorkflow.execute oracle credentials (some c) response =
          { result := oracle.finishResponse
            cache := some c
            events := ev1 ++ [Event.commandFinish credentials.source
              (finishCommandDocument t.accessTokenOf startDoc.conversationId)] }) := by
  constructor
  · intro ev hev
    cases hg : getCallback credentials.mechanismProperties with
    | error e =>
        rw [execute_eq_no_callback oracle credentials (some c) response e hg] at hev
        simp at hev
    | ok info =>
        rcases hsa : CallbackWorkflow.startAuthentication oracle credentials response
          with ⟨sres, ev1⟩
        cases sres with
        | error e =>
            rw [execute_eq_start_error oracle credentials (some c) response info e ev1
              hg hsa] at hev
            exact startAuthentication_events_conversation oracle credentials response ev
              (by rw [hsa]; exact hev)
        | ok startDoc =>
            rw [execute_eq_cache_hit oracle credentials c response info startDoc ev1 t
              hg hsa ht] at hev
            simp only [List.mem_append, List.mem_singleton] at hev
            rcases hev with hev | hev
            · exact startAuthentication_events_conversation oracle credentials response ev
                (by rw [hsa]; exact hev)
            · rw [hev]; rfl
  · intro info startDoc ev1 hg hsa
    exact execute_eq_cache_hit oracle credentials c response info startDoc ev1 t hg hsa ht

/-- Witness for C5: a concrete run over a warm cache sends only the start
and finish commands and finishes with the cached token. -/
theorem execute_cache_hit_skips_acquisition_witness :
    (CallbackWorkflow.execute sampleOracle sampleCredentials
        (some sampleCacheWithToken) none).result = .ok { tag := 0 }
    ∧ (CallbackWorkflow.execute sampleOracle sampleCredentials
        (some sampleCacheWithToken) none).events
      = [Event.commandStart "admin" (startCommandDocument sampleCredentials),
         Event.commandFinish "admin" (finishCommandDocument "cached" (some 7))] := by
  have h := (execute_cache_hit_skips_acquisition sampleOracle sampleCredentials
    sampleCacheWithToken none cachedToken rfl).2
    { callback := 1, isHumanWorkflow := false }
    { conversationId := some 7, payload := sampleIdPInfo }
    [Event.commandStart "admin" (startCommandDocument sampleCredentials)] rfl rfl
  rw [h]
  exact ⟨rfl, rfl⟩

/-- C10: on a cache miss, the validated token fetched in the call is written
to the cache before the finish command is sent, and the callback workflow
performs no cache invalidation on finish failure: when the finish command
fails, the cache still holds that token, and the effect trace shows the
callback invocation preceding the finish command. -/
theorem finish_failure_keeps_fresh_token (oracle : ConnOracle)
    (credentials : MongoCredentials) (c : TokenCache) (response : Option PriorResponse)
    (r : CallbackResult) (e : MongoError) (info : OIDCCallbackInfo)
    (startDoc : StartResponse) (ev1 : List Event)
    (hc : c.hasToken = false)
    (hcb : oracle.callbackOutcome = .ok r)
    (hvalid : isCallbackResultInvalid r = false)
    (hfin : oracle.finishResponse = .error e)
    (hinfo : getCallback credentials.mechanismProperties = .ok info)
    (hstart : CallbackWorkflow.startAuthentication oracle credentials response
      = (.ok startDoc, ev1)) :
    (CallbackWorkflow.execute oracle credentials (some c) response).result = .error e
    ∧ (CallbackWorkflow.execute oracle credentials (some c) response).cache
        = some (c.put r)
    ∧ (CallbackWorkflow.execute oracle credentials (some c) response).events
        = ev1 ++ [Event.callbackInvoked info.callback (callbackParamsFor startDoc.payload),
            Event.commandFinish credentials.source
              (finishCommandDocument r.accessTokenOf startDoc.conversationId)] := by
  have hcond : cacheHasToken (some c) = false := by simpa [cacheHasToken] using hc
  have hf := fetchAccessToken_valid oracle info startDoc.payload r hcb hvalid
  have he := execute_eq_fetch_ok oracle credentials (some c) response info startDoc ev1 r
    [Event.callbackInvoked info.callback (callbackParamsFor startDoc.payload)]
    hinfo hstart hcond hf
  rw [he]
  refine ⟨hfin, rfl, ?_⟩
  simp

/-- Witness for C10: a concrete run whose finish command is rejected leaves
the freshly fetched token in the previously empty cache. -/
theorem finish_failure_keeps_fresh_token_witness :
    (CallbackWorkflow.execute failFinishOracle sampleCredentials (some {}) none).result
      = .error (.server { tag := 9 })
    ∧ (CallbackWorkflow.execute failFinishOracle sampleCredentials (some {}) none).cache
      = some (TokenCache.put {} sampleToken) := by
  have h := finish_failure_keeps_fresh_token failFinishOracle sampleCredentials {} none
    sampleToken (.server { tag := 9 }) { callback := 1, isHumanWorkflow := false }
    { conversationId := some 7, payload := sampleIdPInfo }
    [Event.commandStart "admin" (startCommandDocument sampleCredentials)]
    rfl rfl rfl rfl rfl rfl
  exact ⟨h.1, h.2.1⟩

end MongoDBOIDC
